import Mathlib

/-!
Verification of the DHALSIM_SWMM control-rule compiler and controller runtime.

The development shallowly embeds the Python sources:
  - `src/dhalsim/parser/input_parser.py` (descriptor generation and
    per-controller distribution, `InputParser.generate_controls`),
  - `src/dhalsim/python2/generic_plc.py` (`create_controls`, `GenericPLC.get_tag`,
    `GenericPLC.set_tag`, `GenericPLC.main_loop`),
  - `src/ICS_topologies/enhanced_ctown_topology/scada.py` (`SCADAServer`).
Python numbers are modelled as exact rationals or integers, exceptions as an
explicit `Except` error type, and the mutable controller state as an explicit
record threaded through the loop functions.
-/

set_option autoImplicit false

/-- A Python numeric value as it appears in the intermediate-yaml control
dicts: `int(...)` results are `int`, `float(...)` results are `float`
(modelled as exact rationals; binary floating-point rounding is out of the
scope of the verified claims, whose numeric literals are exactly
representable). -/
inductive PyNum where
  | int (n : Int)
  | float (q : Rat)
deriving Repr, DecidableEq

/-- The rational denoted by an integer, built by the normalized constructor
(kept constructor-level so that all embedded arithmetic evaluates by kernel
reduction). -/
def intToRat (n : Int) : Rat := mkRat n 1

/-- The rational denoted by a natural number. -/
def natToRat (n : Nat) : Rat := mkRat (Int.ofNat n) 1

/-- Numeric view of a `PyNum`, matching Python mixed int/float comparison. -/
def PyNum.toRat : PyNum → Rat
  | PyNum.int n => intToRat n
  | PyNum.float q => q

/-- Equality of `Except` values is decidable when both components are. -/
instance {ε α : Type} [DecidableEq ε] [DecidableEq α] : DecidableEq (Except ε α) := fun a b =>
  match a, b with
  | Except.error e, Except.error f =>
    if h : e = f then Decidable.isTrue (congrArg Except.error h)
    else Decidable.isFalse (fun hc => h (Except.error.inj hc))
  | Except.error _, Except.ok _ => Decidable.isFalse (fun hc => Except.noConfusion hc)
  | Except.ok _, Except.error _ => Decidable.isFalse (fun hc => Except.noConfusion hc)
  | Except.ok x, Except.ok y =>
    if h : x = y then Decidable.isTrue (congrArg Except.ok h)
    else Decidable.isFalse (fun hc => h (Except.ok.inj hc))

/-- The Python exceptions raised by the embedded code paths. -/
inductive PyErr where
  | keyError (k : String)
  | valueError (s : String)
  | tagDoesNotExist (tag : String)
  | invalidControlValue (v : String)
  | remoteTimeout (tag : String)
deriving Repr, DecidableEq

/-- One parsed control statement of the ANTLR tree: the children of one
`tree.getChild(i)` node, each child rendered through Python `str(...)` as the
token text (`InputParser.generate_controls` only ever uses the children via
`str`). -/
structure ParseNode where
  children : List String
deriving Repr, DecidableEq

/-- `str(child.getChild(i))`: the text of the i-th child token; ANTLR yields
`None` out of range and `str(None)` is the text `None`. -/
def getChild (child : ParseNode) (i : Nat) : String :=
  child.children.getD i ("None")

/-- Python `str.lower()` on the ASCII token texts: lowercase every
character. -/
def pyLower (s : String) : String :=
  String.mk (s.data.map Char.toLower)

/-- A digit character's value. -/
def digitVal (c : Char) : Option Nat :=
  if c.isDigit then some (c.toNat - 48) else none

/-- The natural number denoted by a digit string, left to right. -/
def natFromDigits (cs : List Char) : Option Nat :=
  cs.foldl (fun acc c =>
    match acc, digitVal c with
    | some a, some d => some (a * 10 + d)
    | _, _ => none) (some 0)

/-- Unsigned decimal literal: digits with an optional fractional part; the
denoted rational is integer part plus fraction digits over the matching
power of ten. -/
def pyFloatCore (cs : List Char) : Option Rat :=
  match cs.splitOn '.' with
  | [ip] =>
    if ip.isEmpty then none
    else (natFromDigits ip).map natToRat
  | [ip, fp] =>
    if ip.isEmpty && fp.isEmpty then none
    else
      match natFromDigits ip, natFromDigits fp with
      | some n, some f => some (mkRat (Int.ofNat (n * 10 ^ fp.length + f)) (10 ^ fp.length))
      | _, _ => none
  | _ => none

/-- Python `float(...)` applied to the numeric-literal tokens produced by the
controls grammar (an optional minus sign, digits, an optional fractional
part), modelled exactly over the rationals. -/
def pyFloat (s : String) : Option Rat :=
  match s.toList with
  | '-' :: rest => (pyFloatCore rest).map (fun q => -q)
  | cs => pyFloatCore cs

/-- `float(...)`, raising `ValueError` on a non-literal, as an `Except`. -/
def pyFloatE (s : String) : Except PyErr Rat :=
  match pyFloat s with
  | some v => Except.ok v
  | none => Except.error (PyErr.valueError s)

/-- Python `int(...)` on a float value: truncation toward zero
(`Int.tdiv` of the numerator by the positive denominator). -/
def pyInt (q : Rat) : Int :=
  Int.tdiv q.num (Int.ofNat q.den)

/-- One control dict as appended to `controls` by
`InputParser.generate_controls`: keys `type`, `dependant` (present only for
the 8-child conditional production), `value`, `actuator`, `action`. -/
structure ControlDict where
  type : String
  dependant : Option String
  value : PyNum
  actuator : String
  action : String
deriving Repr, DecidableEq

/-- The body of the per-child loop of `InputParser.generate_controls`
(input_parser.py lines 86-110): `actuator = str(child.getChild(1))`,
`action = str(child.getChild(2))`; a child with 8 children appends the
conditional dict with `type = str(child.getChild(6)).lower()`, a child with
6 children appends the time dict with `type = "time"`; a child of any other
shape appends nothing. `float(...)` failures propagate as `ValueError`. -/
def genFromNode (child : ParseNode) : Except PyErr (List ControlDict) :=
  let actuator := getChild child 1
  let action := getChild child 2
  let part1 : Except PyErr (List ControlDict) :=
    if child.children.length == 8 then
      match pyFloatE (getChild child 7) with
      | Except.error e => Except.error e
      | Except.ok value =>
        Except.ok [{ type := pyLower (getChild child 6),
                     dependant := some (getChild child 5),
                     value := PyNum.float value,
                     actuator := actuator,
                     action := pyLower action }]
    else Except.ok []
  match part1 with
  | Except.error e => Except.error e
  | Except.ok l1 =>
    if child.children.length == 6 then
      match pyFloatE (getChild child 5) with
      | Except.error e => Except.error e
      | Except.ok value =>
        Except.ok (l1 ++ [{ type := "time",
                            dependant := none,
                            value := PyNum.int (pyInt value),
                            actuator := actuator,
                            action := pyLower action }])
    else Except.ok l1

/-- `InputParser.generate_controls`, descriptor-generation phase: the loop
over `tree.getChild(i)` accumulating the `controls` list in input order. -/
def generate_controls : List ParseNode → Except PyErr (List ControlDict)
  | [] => Except.ok []
  | n :: rest =>
    match genFromNode n with
    | Except.error e => Except.error e
    | Except.ok ds =>
      match generate_controls rest with
      | Except.error e => Except.error e
      | Except.ok ds2 => Except.ok (ds ++ ds2)

/-- One controller definition from the intermediate yaml `plcs` entry:
a Python dict keyed by the strings `name`, `ip`, `sensors`, `actuators`. -/
structure PlcConfig where
  name : String
  ip : String
  sensors : List String
  actuators : List String
deriving Repr, DecidableEq

/-- The inner loop of the distribution phase of
`InputParser.generate_controls` (input_parser.py lines 112-117): one plc's
`controls` list is every compiled control whose `actuator` is in that plc's
`actuators`, in compiled order. -/
def plc_controls (controls : List ControlDict) (plc : PlcConfig) : List ControlDict :=
  controls.filter (fun control => control.actuator ∈ plc.actuators)

/-- The full distribution phase: the per-plc `controls` lists, in `plcs`
order. -/
def assign_controls (plcs : List PlcConfig) (controls : List ControlDict) :
    List (List ControlDict) :=
  plcs.map (fun plc => plc_controls controls plc)

example : pyFloat ("5") = some (natToRat 5) := by decide
example : pyFloat ("1.5") = some (mkRat 3 2) := by decide
example : pyFloat ("-2") = some (intToRat (-2)) := by decide
example : pyFloat ("abc") = none := by decide
example : pyInt (mkRat 3 2) = 1 := by decide
example : pyInt (mkRat (-3) 2) = -1 := by decide

example :
    generate_controls [⟨["SET", "PU1", "OPEN", "IF", "NODE", "T1", "ABOVE", "5"]⟩] =
      Except.ok [{ type := "above", dependant := some ("T1"), value := PyNum.float (natToRat 5),
                   actuator := "PU1", action := "open" }] := by decide

example :
    generate_controls [⟨["SET", "PU1", "OPEN", "AT", "TIME", "5"]⟩] =
      Except.ok [{ type := "time", dependant := none, value := PyNum.int 5,
                   actuator := "PU1", action := "open" }] := by decide

/-- A runtime control object as built by `create_controls` in
`generic_plc.py`: `AboveControl(actuator, action, dependant, value)`,
`BelowControl(actuator, action, dependant, value)`,
`TimeControl(actuator, action, value)`. -/
inductive RuntimeControl where
  | above (actuator action dependant : String) (value : PyNum)
  | below (actuator action dependant : String) (value : PyNum)
  | time (actuator action : String) (value : PyNum)
deriving Repr, DecidableEq

/-- Python dict read `control["dependant"]`: raises `KeyError` when the key
is absent (the time dicts of the generator omit it). -/
def getDependant (control : ControlDict) : Except PyErr String :=
  match control.dependant with
  | some d => Except.ok d
  | none => Except.error (PyErr.keyError ("dependant"))

/-- The body of the `create_controls` loop of generic_plc.py (lines 58-68):
three independent equality tests of `control["type"]` against the
capitalized literals `"Above"`, `"Below"` and `"Time"`, each appending one
runtime control object; a control matching none of the three contributes
nothing. -/
def convertControl (control : ControlDict) : Except PyErr (List RuntimeControl) :=
  let part1 : Except PyErr (List RuntimeControl) :=
    if control.type == "Above" then
      match getDependant control with
      | Except.error e => Except.error e
      | Except.ok d =>
        Except.ok [RuntimeControl.above control.actuator control.action d control.value]
    else Except.ok []
  match part1 with
  | Except.error e => Except.error e
  | Except.ok l1 =>
    let part2 : Except PyErr (List RuntimeControl) :=
      if control.type == "Below" then
        match getDependant control with
        | Except.error e => Except.error e
        | Except.ok d =>
          Except.ok [RuntimeControl.below control.actuator control.action d control.value]
      else Except.ok []
    match part2 with
    | Except.error e => Except.error e
    | Except.ok l2 =>
      if control.type == "Time" then
        Except.ok (l1 ++ l2 ++ [RuntimeControl.time control.actuator control.action control.value])
      else Except.ok (l1 ++ l2)

/-- `create_controls` of generic_plc.py: the loop over `controls_list`
accumulating `ret` in list order. -/
def create_controls : List ControlDict → Except PyErr (List RuntimeControl)
  | [] => Except.ok []
  | c :: rest =>
    match convertControl c with
    | Except.error e => Except.error e
    | Except.ok rs =>
      match create_controls rest with
      | Except.error e => Except.error e
      | Except.ok rest2 => Except.ok (rs ++ rest2)

/-- The state of one `GenericPLC` process: the loaded intermediate yaml
(`plcs` list), the plc indices, the local clock, the runtime controls, the
minicps local tag store, and the values answerable by peers over the
network (keyed by peer address and tag name). -/
structure PlcState where
  plcs : List PlcConfig
  yaml_index : Nat
  index : Nat
  local_time : Nat
  controls : List RuntimeControl
  localTags : List (String × PyNum)
  network : List ((String × String) × PyNum)
deriving Repr, DecidableEq

/-- `self.intermediate_plc = self.intermediate_yaml["plcs"][self.yaml_index]`
(generic_plc.py line 80); states of interest carry a valid index. -/
def intermediate_plc (s : PlcState) : PlcConfig :=
  s.plcs.getD s.yaml_index ⟨"", "", [], []⟩

/-- Modelled from the spec: the Tag Store local read `get(tag)` served by the
protocol-stack collaborator (spec 4.4, the minicps `self.get`, whose code is
not under src); a tag absent from the local map raises a key error. -/
def storeGet (s : PlcState) (tag : String) : Except PyErr PyNum :=
  match s.localTags.lookup tag with
  | some v => Except.ok v
  | none => Except.error (PyErr.keyError tag)

/-- Modelled from the spec: the Tag Store local write `set(tag, value)` of
the protocol-stack collaborator (spec 4.4, the minicps `self.set`, not under
src): update the local map at the tag. -/
def storeSet (s : PlcState) (tag : String) (v : PyNum) : PlcState :=
  { s with localTags := (tag, v) :: s.localTags }

/-- Modelled from the spec: `receive(tag, address)` of the protocol-stack
collaborator (spec 4.4, not under src) — a bounded-timeout remote read
answered from the peer at the given address; an unanswered read raises a
timeout error, an expected failure. -/
def receive (s : PlcState) (tag : String) (address : String) : Except PyErr PyNum :=
  match s.network.lookup (address, tag) with
  | some v => Except.ok v
  | none => Except.error (PyErr.remoteTimeout tag)

/-- The Python subscript `plc_data[i]` at generic_plc.py lines 152-153,
where `plc_data` is the enumerated element of `self.intermediate_yaml["plcs"]`
(a dict keyed by the strings `name`, `ip`, `sensors`, `actuators`) and `i`
the integer loop index: an integer key is never present in that dict, so the
subscript raises `KeyError(i)`. -/
def plcGetIntKey (plc_data : PlcConfig) (i : Nat) : Except PyErr PlcConfig :=
  Except.error (PyErr.keyError (toString i))

/-- The `for i, plc_data in enumerate(self.intermediate_yaml["plcs"])` loop
of `GenericPLC.get_tag` (generic_plc.py lines 149-155): skip the own index;
otherwise evaluate `tag in plc_data[i]["sensors"] or tag in
plc_data[i]["actuators"]` (whose first subscript `plc_data[i]` is evaluated
first) and on a hit `return self.receive((tag, 1), plc_data[i]["ip"])`;
falling off the loop raises `TagDoesNotExist(tag)`. -/
def get_tag_scan (s : PlcState) (tag : String) :
    List (Nat × PlcConfig) → Except PyErr PyNum
  | [] => Except.error (PyErr.tagDoesNotExist tag)
  | (i, plc_data) :: rest =>
    if i == s.index then get_tag_scan s tag rest
    else
      match plcGetIntKey plc_data i with
      | Except.error e => Except.error e
      | Except.ok pd =>
        if tag ∈ pd.sensors ∨ tag ∈ pd.actuators then
          match plcGetIntKey plc_data i with
          | Except.error e => Except.error e
          | Except.ok pd2 => receive s tag pd2.ip
        else get_tag_scan s tag rest

/-- `GenericPLC.get_tag` (generic_plc.py lines 145-155): a tag among the own
plc's sensors or actuators is read locally via `self.get((tag, 1))`; any
other tag goes through the peer scan. -/
def get_tag (s : PlcState) (tag : String) : Except PyErr PyNum :=
  if tag ∈ (intermediate_plc s).sensors ∨ tag ∈ (intermediate_plc s).actuators then
    storeGet s tag
  else
    get_tag_scan s tag s.plcs.enum

/-- `GenericPLC.set_tag` (generic_plc.py lines 157-166): a string value
lowercasing to `"closed"` is written as 0, one lowercasing to `"open"` as 1,
and anything else raises `InvalidControlValue(value)` before any write. -/
def set_tag (s : PlcState) (tag : String) (value : String) : Except PyErr PlcState :=
  if pyLower value == "closed" then Except.ok (storeSet s tag (PyNum.int 0))
  else if pyLower value == "open" then Except.ok (storeSet s tag (PyNum.int 1))
  else Except.error (PyErr.invalidControlValue value)

/-- `GenericPLC.get_master_clock` (generic_plc.py lines 169-170): the local
clock. -/
def get_master_clock (s : PlcState) : Nat := s.local_time

/-- Modelled from the spec: `control.apply(self)` for the three rule classes
AboveControl, BelowControl, TimeControl of the `control` module, which is
imported by generic_plc.py but is not under src; spec 4.3 defines the
per-kind evaluation. Above: read the dependant through `get_tag`; when its
value exceeds the threshold, write the action to the actuator through
`set_tag`. Below: symmetric with the strict lower comparison. Time: when the
controller clock equals the trigger tick, write the action. A rule that does
not fire leaves the state unchanged. -/
def applyControl (c : RuntimeControl) (s : PlcState) : Except PyErr PlcState :=
  match c with
  | RuntimeControl.above actuator action dependant value =>
    match get_tag s dependant with
    | Except.error e => Except.error e
    | Except.ok v =>
      if value.toRat < v.toRat then set_tag s actuator action else Except.ok s
  | RuntimeControl.below actuator action dependant value =>
    match get_tag s dependant with
    | Except.error e => Except.error e
    | Except.ok v =>
      if v.toRat < value.toRat then set_tag s actuator action else Except.ok s
  | RuntimeControl.time actuator action value =>
    if natToRat (get_master_clock s) = value.toRat then set_tag s actuator action
    else Except.ok s

/-- The `for control in self.controls: control.apply(self)` loop inside the
try block of `GenericPLC.main_loop` (generic_plc.py lines 178-179): apply in
list order; the first raised exception abandons the rest of the list,
returning the state as of the raise together with the exception. -/
def runRules : List RuntimeControl → PlcState → PlcState × Option PyErr
  | [], s => (s, none)
  | c :: rest, s =>
    match applyControl c s with
    | Except.ok s1 => runRules rest s1
    | Except.error e => (s, some e)

/-- `self.local_time += 1`, the first statement of the try block of
`GenericPLC.main_loop` (generic_plc.py line 176). -/
def incClock (s : PlcState) : PlcState := { s with local_time := s.local_time + 1 }

/-- One iteration of the `while True` loop of `GenericPLC.main_loop`
(generic_plc.py lines 174-184): increment the clock, apply the controls in
order; any exception raised inside the try block is caught by the blanket
`except Exception: continue`, so the iteration ends with the state as of the
raise and the loop goes on. -/
def main_loop_tick (s : PlcState) : PlcState :=
  (runRules s.controls (incClock s)).1

/-- `n` iterations of `GenericPLC.main_loop`. -/
def main_loop_n : Nat → PlcState → PlcState
  | 0, s => s
  | Nat.succ m, s => main_loop_n m (main_loop_tick s)

/-- One CSV row of the collector: the header strings or the rendered
timestamp and tank-level cells of one sample (rows pass through
`csv.writer.writerows` unchanged, so their cell rendering is immaterial to
the flush behaviour). -/
abbrev ScadaRow := List String

/-- The state of the SCADA collector process of scada.py: the in-memory
buffer `self.saved_tank_levels`, the contents of the output file (none
before any write), and whether the process is still running. -/
structure ScadaState where
  saved_tank_levels : List ScadaRow
  fileContents : Option (List ScadaRow)
  running : Bool
deriving Repr, DecidableEq

/-- The header row installed by `SCADAServer.pre_loop` (scada.py line 31). -/
def scadaHeader : ScadaRow :=
  ["iteration", "timestamp", "T1", "T2", "T3", "T4", "T5", "T7"]

/-- `SCADAServer.pre_loop` (scada.py lines 27-33): reset the buffer to the
header row (the signal-handler installation is part of the delivery model
below). -/
def scada_pre_loop (s : ScadaState) : ScadaState :=
  { s with saved_tank_levels := [scadaHeader] }

/-- One iteration of `SCADAServer.main_loop` (scada.py lines 38-51) in which
every `receive` succeeded: append the sampled row to the buffer. -/
def scada_append (s : ScadaState) (row : ScadaRow) : ScadaState :=
  { s with saved_tank_levels := s.saved_tank_levels ++ [row] }

/-- A run of collector iterations appending the given sampled rows. -/
def scada_run (s : ScadaState) (rows : List ScadaRow) : ScadaState :=
  rows.foldl scada_append s

/-- `SCADAServer.write_output` (scada.py lines 17-21): open the output file
in mode `w` (truncating any previous contents) and write every buffered row
once, in order. -/
def write_output (s : ScadaState) : ScadaState :=
  { s with fileContents := some s.saved_tank_levels }

/-- `SCADAServer.sigint_handler` (scada.py lines 23-25): flush via
`write_output`, then `sys.exit(0)`; `SystemExit` is not an `Exception` in
Python 2, so the blanket handler of the main loop does not catch it and the
process terminates. -/
def sigint_handler (s : ScadaState) : ScadaState :=
  { write_output s with running := false }

/-- Delivery of one shutdown request (SIGINT/SIGTERM): the installed handler
runs while the process is alive; a signal sent after the process has exited
is not delivered to it. -/
def deliverShutdown (s : ScadaState) : ScadaState :=
  if s.running then sigint_handler s else s

/-- Fixture: a conditional control statement, `SET PU1 OPEN IF NODE T1 ABOVE 5`
(8 children). -/
def condNode8 : ParseNode := ⟨["SET", "PU1", "OPEN", "IF", "NODE", "T1", "ABOVE", "5"]⟩

/-- Fixture: a temporal control statement, `SET PU1 OPEN AT TIME 5`
(6 children). -/
def timeNode6 : ParseNode := ⟨["SET", "PU1", "OPEN", "AT", "TIME", "5"]⟩

/-- Fixture: a 6-child statement whose keyword tokens are those of a
conditional statement, not the time keywords. -/
def fakeNode6 : ParseNode := ⟨["SET", "PU1", "OPEN", "IF", "NODE", "5"]⟩

/-- Fixture: a statement of a shape matching neither production
(7 children). -/
def node7 : ParseNode := ⟨["SET", "PU1", "OPEN", "AT", "TIME", "5", "X"]⟩

/-- Fixture: the descriptor the generator emits for `condNode8`. -/
def dictAbove5 : ControlDict :=
  { type := "above", dependant := some ("T1"), value := PyNum.float (natToRat 5),
    actuator := "PU1", action := "open" }

/-- Fixture: the descriptor the generator emits for `timeNode6`. -/
def dictTime5 : ControlDict :=
  { type := "time", dependant := none, value := PyNum.int 5,
    actuator := "PU1", action := "open" }

/-- C1 counterexample: two statements with the same child count (6) but
different keyword tokens (`AT` against `IF` at child 3, `TIME` against
`NODE` at child 4) are both classified as the Time kind, so the Descriptor
Generator does not classify from the explicit token kind: the 6-child shape
alone decides. -/
theorem c1_counterexample :
    timeNode6.children.length = fakeNode6.children.length ∧
    getChild timeNode6 3 ≠ getChild fakeNode6 3 ∧
    getChild timeNode6 4 ≠ getChild fakeNode6 4 ∧
    (generate_controls [timeNode6, fakeNode6]).map (fun l => l.map ControlDict.type) =
      Except.ok [("time"), ("time")] := by decide

/-- C1 corrected: the Descriptor Generator classifies by the child count of
the syntax node: an 8-child node is a conditional control whose Above/Below
kind is the lowercased relational token at child 6, while every 6-child node
is classified Time from its shape alone, whatever its keyword tokens are. -/
theorem c1_amended_classification (n : ParseNode) (v : Rat)
    (h8 : n.children.length = 8) (hv : pyFloat (getChild n 7) = some v)
    (m : ParseNode) (w : Rat)
    (h6 : m.children.length = 6) (hw : pyFloat (getChild m 5) = some w) :
    (generate_controls [n]).map (fun l => l.map ControlDict.type) =
      Except.ok [pyLower (getChild n 6)] ∧
    (generate_controls [m]).map (fun l => l.map ControlDict.type) =
      Except.ok [("time")] := by
  constructor
  · simp [generate_controls, genFromNode, pyFloatE, h8, hv, Except.map]
  · simp [generate_controls, genFromNode, pyFloatE, h6, hw, Except.map]

/-- Witness for `c1_amended_classification` at the two fixture
statements. -/
theorem c1_amended_witness :
    (generate_controls [condNode8]).map (fun l => l.map ControlDict.type) =
      Except.ok [pyLower (getChild condNode8 6)] ∧
    (generate_controls [timeNode6]).map (fun l => l.map ControlDict.type) =
      Except.ok [("time")] :=
  c1_amended_classification condNode8 (natToRat 5) (by decide) (by decide)
    timeNode6 (natToRat 5) (by decide) (by decide)

/-- C2 code bug: the Descriptor Generator emits lowercase type strings
(`"above"`, `"time"`), but `create_controls` matches the capitalized
literals `"Above"`, `"Below"`, `"Time"`, so for the generator's own output
it yields no runtime control at all — every descriptor is silently dropped
instead of producing exactly one control object each. -/
theorem c2_descriptors_dropped :
    generate_controls [condNode8, timeNode6] = Except.ok [dictAbove5, dictTime5] ∧
    create_controls [dictAbove5, dictTime5] = Except.ok [] := by decide

/-- C3 counterexample: a 7-child statement matches neither production, yet
compilation succeeds with the statement silently omitted — no `ParseError`
(indeed no parse-error path exists in `generate_controls`). -/
theorem c3_counterexample :
    node7.children.length ≠ 8 ∧ node7.children.length ≠ 6 ∧
    generate_controls [node7] = Except.ok [] := by decide

/-- C3 corrected: a syntax node matching neither the conditional production
(8 children) nor the temporal production (6 children) is silently skipped:
it contributes no descriptor and raises no error, so the compiled sequence
is exactly that of the remaining statements. -/
theorem c3_amended_silent_skip (n : ParseNode) (rest : List ParseNode)
    (h8 : n.children.length ≠ 8) (h6 : n.children.length ≠ 6) :
    generate_controls (n :: rest) = generate_controls rest := by
  have hf : genFromNode n = Except.ok [] := by
    simp [genFromNode, h8, h6]
  cases hr : generate_controls rest with
  | error e => simp [generate_controls, hf, hr]
  | ok ds2 => simp [generate_controls, hf, hr]

/-- Witness for `c3_amended_silent_skip` at the 7-child fixture. -/
theorem c3_amended_witness :
    generate_controls (node7 :: [timeNode6]) = generate_controls [timeNode6] :=
  c3_amended_silent_skip node7 [timeNode6] (by decide) (by decide)

/-- Fixture: a controller owning sensor T1 and actuator PU1. -/
def plcA : PlcConfig := ⟨"PLC1", "10.0.1.1", ["T1"], ["PU1"]⟩

/-- Fixture: a second controller also owning actuator PU1. -/
def plcB : PlcConfig := ⟨"PLC2", "10.0.1.2", ["T2"], ["PU1"]⟩

/-- Fixture: a descriptor whose actuator PU9 no controller owns. -/
def dictUnowned : ControlDict :=
  { type := "above", dependant := some ("T1"), value := PyNum.float (natToRat 5),
    actuator := "PU9", action := "open" }

/-- C4 counterexample: a descriptor whose actuator no controller owns ends
up in no controller's controls list and no error of any kind is raised
(distribution is a plain filter), and a descriptor whose actuator two
controllers declare is appended to both lists rather than raising
`DuplicateOwnershipError`. -/
theorem c4_counterexample :
    (assign_controls [plcA] [dictUnowned]).map (fun l => l.count dictUnowned) = [0] ∧
    (assign_controls [plcA, plcB] [dictAbove5]).map (fun l => l.count dictAbove5) = [1, 1] := by
  decide

/-- C4 corrected: distribution appends each descriptor to the controls list
of every controller whose actuator list contains the descriptor's actuator:
membership in the i-th controller's list holds exactly when the descriptor
is in the compiled sequence and its actuator is owned by the i-th
controller. A descriptor owned by nobody is silently dropped and one owned
by several controllers is duplicated; no error is ever raised. -/
theorem c4_amended_membership (plcs : List PlcConfig) (controls : List ControlDict)
    (i : Nat) (l : List ControlDict)
    (h : (assign_controls plcs controls).get? i = some l) (c : ControlDict) :
    c ∈ l ↔ ∃ p, plcs.get? i = some p ∧ c ∈ controls ∧ c.actuator ∈ p.actuators := by
  unfold assign_controls at h
  rw [List.get?_map] at h
  cases hp : plcs.get? i with
  | none => rw [hp] at h; cases h
  | some p =>
    rw [hp] at h
    simp only [Option.map_some'] at h
    injection h with h
    subst h
    simp [plc_controls, List.mem_filter]

/-- Witness for `c4_amended_membership`: the duplicated-ownership fixture,
second controller. -/
theorem c4_amended_witness :
    dictAbove5 ∈ plc_controls [dictAbove5] plcB ↔
      ∃ p, [plcA, plcB].get? 1 = some p ∧ dictAbove5 ∈ [dictAbove5] ∧
        dictAbove5.actuator ∈ p.actuators :=
  c4_amended_membership [plcA, plcB] [dictAbove5] 1 (plc_controls [dictAbove5] plcB)
    (by decide) dictAbove5

/-- C5 confirmed: the controls list a controller receives from distribution
is an ordered sublist of the full compiled descriptor sequence, so any two
descriptors assigned to the same controller keep their original relative
order. -/
theorem c5_order_preserved (controls : List ControlDict) (plc : PlcConfig) :
    List.Sublist (plc_controls controls plc) controls :=
  List.filter_sublist controls

/-- Helper: a successful `set_tag` only writes the local tag map; the clock
and the control list are untouched. -/
theorem set_tag_preserves (s : PlcState) (tag value : String) (t : PlcState)
    (h : set_tag s tag value = Except.ok t) :
    t.local_time = s.local_time ∧ t.controls = s.controls := by
  unfold set_tag at h
  split at h
  · injection h with h
    subst h
    exact ⟨rfl, rfl⟩
  · split at h
    · injection h with h
      subst h
      exact ⟨rfl, rfl⟩
    · cases h

/-- Helper: a successful rule application only writes the local tag map. -/
theorem applyControl_preserves (c : RuntimeControl) (s t : PlcState)
    (h : applyControl c s = Except.ok t) :
    t.local_time = s.local_time ∧ t.controls = s.controls := by
  cases c with
  | above actuator action dependant value =>
    simp only [applyControl] at h
    cases hg : get_tag s dependant with
    | error e => simp [hg] at h
    | ok v =>
      simp only [hg] at h
      split at h
      · exact set_tag_preserves s actuator action t h
      · injection h with h
        subst h
        exact ⟨rfl, rfl⟩
  | below actuator action dependant value =>
    simp only [applyControl] at h
    cases hg : get_tag s dependant with
    | error e => simp [hg] at h
    | ok v =>
      simp only [hg] at h
      split at h
      · exact set_tag_preserves s actuator action t h
      · injection h with h
        subst h
        exact ⟨rfl, rfl⟩
  | time actuator action value =>
    simp only [applyControl] at h
    split at h
    · exact set_tag_preserves s actuator action t h
    · injection h with h
      subst h
      exact ⟨rfl, rfl⟩

/-- Helper: the rule loop of one tick, whether or not it raises, leaves the
clock and the control list as they were at the start of the tick. -/
theorem runRules_preserves (cs : List RuntimeControl) (s : PlcState) :
    (runRules cs s).1.local_time = s.local_time ∧
    (runRules cs s).1.controls = s.controls := by
  induction cs generalizing s with
  | nil => exact ⟨rfl, rfl⟩
  | cons c rest ih =>
    cases ha : applyControl c s with
    | ok s1 =>
      have hp := applyControl_preserves c s s1 ha
      have hr := ih s1
      simp only [runRules, ha]
      exact ⟨hr.1.trans hp.1, hr.2.trans hp.2⟩
    | error e =>
      simp [runRules, ha]

/-- Helper: every loop iteration advances the clock by exactly one, even
when a rule raises and the blanket handler cuts the tick short. -/
theorem main_loop_clock (n : Nat) (s : PlcState) :
    (main_loop_n n s).local_time = s.local_time + n := by
  induction n generalizing s with
  | zero => rfl
  | succ m ih =>
    have h1 : (main_loop_tick s).local_time = s.local_time + 1 := by
      unfold main_loop_tick
      rw [(runRules_preserves s.controls (incClock s)).1]
      rfl
    simp only [main_loop_n]
    rw [ih (main_loop_tick s), h1]
    omega

/-- Fixture: a controller owning sensor T0 and actuators PU1, PU2, alone in
the yaml. -/
def plcSelf : PlcConfig := ⟨"PLC1", "10.0.1.1", ["T0"], ["PU1", "PU2"]⟩

/-- Fixture for C6: the first rule reads the unlisted tag TX (an expected
transient-absence failure), the second is a Time rule due at tick 1 that
would set PU2 open. -/
def s6 : PlcState :=
  { plcs := [plcSelf], yaml_index := 0, index := 0, local_time := 0,
    controls := [RuntimeControl.above ("PU1") ("open") ("TX") (PyNum.float (natToRat 5)),
                 RuntimeControl.time ("PU2") ("open") (PyNum.int 1)],
    localTags := [("T0", PyNum.float (natToRat 3)), ("PU1", PyNum.int 0), ("PU2", PyNum.int 0)],
    network := [] }

/-- C6 counterexample: in the fixture tick, the first rule raises an
expected failure (tag TX transiently absent), and the second rule of the
same tick is then never evaluated: PU2 stays 0 after the tick although
evaluating the pending Time rule at that clock would have set it to 1. The
whole tick's rule list is abandoned by the loop-level handler. -/
theorem c6_counterexample :
    (runRules s6.controls (incClock s6)).2 = some (PyErr.tagDoesNotExist ("TX")) ∧
    (main_loop_tick s6).localTags.lookup ("PU2") = some (PyNum.int 0) ∧
    (applyControl (RuntimeControl.time ("PU2") ("open") (PyNum.int 1)) (incClock s6)).map
        (fun t => t.localTags.lookup ("PU2")) = Except.ok (some (PyNum.int 1)) := by
  decide

/-- Helper: the rule loop over a concatenation runs the first part, and the
second part only when the first raised nothing. -/
theorem runRules_append (l1 l2 : List RuntimeControl) (s : PlcState) :
    runRules (l1 ++ l2) s =
      match runRules l1 s with
      | (t, none) => runRules l2 t
      | (t, some e) => (t, some e) := by
  induction l1 generalizing s with
  | nil => rfl
  | cons c rest ih =>
    cases ha : applyControl c s with
    | ok s1 =>
      simp only [List.cons_append, runRules, ha]
      exact ih s1
    | error e =>
      simp only [List.cons_append, runRules, ha]

/-- C6 corrected: a rule failure does not crash the controller, but it does
abort the remainder of that tick: wherever in the rule list the raise
happens, the exception propagates out of the rule loop to the blanket
`except Exception: continue`, so none of the rules after the raising one
runs, and the tick ends in the state the preceding rules had produced (the
raising rule itself, failing before any write, leaves that state as it
is). -/
theorem c6_amended_tick_aborted (s t : PlcState) (pre : List RuntimeControl)
    (c : RuntimeControl) (suf : List RuntimeControl) (e : PyErr)
    (hc : s.controls = pre ++ c :: suf)
    (hpre : runRules pre (incClock s) = (t, none))
    (he : applyControl c t = Except.error e) :
    main_loop_tick s = t ∧ (runRules s.controls (incClock s)).2 = some e := by
  have hrun : runRules s.controls (incClock s) = (t, some e) := by
    rw [hc, runRules_append, hpre]
    simp only [runRules, he]
  constructor
  · unfold main_loop_tick
    rw [hrun]
  · rw [hrun]

/-- Fixture for the C6 witness: the first rule succeeds (a Time rule due at
tick 1 opening PU1), the second rule reads the unlisted tag TX and raises,
and the third — another pending Time rule that would open PU2 — is
skipped. -/
def s6b : PlcState :=
  { plcs := [plcSelf], yaml_index := 0, index := 0, local_time := 0,
    controls := [RuntimeControl.time ("PU1") ("open") (PyNum.int 1),
                 RuntimeControl.above ("PU2") ("open") ("TX") (PyNum.float (natToRat 5)),
                 RuntimeControl.time ("PU2") ("open") (PyNum.int 1)],
    localTags := [("T0", PyNum.float (natToRat 3)), ("PU1", PyNum.int 0), ("PU2", PyNum.int 0)],
    network := [] }

/-- Witness for `c6_amended_tick_aborted` at a mid-list raise: the first
rule of the fixture has already fired (PU1 written open), the second raises,
and the tick ends in that post-first-rule state with the third rule never
evaluated. -/
theorem c6_amended_witness :
    main_loop_tick s6b = storeSet (incClock s6b) ("PU1") (PyNum.int 1) ∧
    (runRules s6b.controls (incClock s6b)).2 = some (PyErr.tagDoesNotExist ("TX")) :=
  c6_amended_tick_aborted s6b (storeSet (incClock s6b) ("PU1") (PyNum.int 1))
    [RuntimeControl.time ("PU1") ("open") (PyNum.int 1)]
    (RuntimeControl.above ("PU2") ("open") ("TX") (PyNum.float (natToRat 5)))
    [RuntimeControl.time ("PU2") ("open") (PyNum.int 1)]
    (PyErr.tagDoesNotExist ("TX")) (by decide) (by decide) (by decide)

/-- Fixture for C7: a conditional rule whose condition holds (T0 = 10 is
above the threshold 5) and whose action string `foo` is outside
open/closed, so `set_tag` raises `InvalidControlValue`. -/
def s7 : PlcState :=
  { plcs := [plcSelf], yaml_index := 0, index := 0, local_time := 0,
    controls := [RuntimeControl.above ("PU1") ("foo") ("T0") (PyNum.float (natToRat 5))],
    localTags := [("T0", PyNum.float (natToRat 10)), ("PU1", PyNum.int 0)],
    network := [] }

/-- C7 counterexample: an `InvalidControlValue` defect raised during rule
evaluation does not propagate out of the evaluation loop and does not
terminate the controller: the blanket `except Exception: continue` of
`main_loop` swallows it and the controller keeps ticking with its rules
intact (two further iterations advance the clock to 2). -/
theorem c7_counterexample :
    (runRules s7.controls (incClock s7)).2 = some (PyErr.invalidControlValue ("foo")) ∧
    (main_loop_n 2 s7).local_time = 2 ∧
    (main_loop_n 2 s7).controls = s7.controls := by decide

/-- C7 corrected: every exception raised during rule evaluation — the
unexpected `InvalidControlValue` included — is caught by the blanket
`except Exception: continue` of `main_loop`: the tick ends in the state at
the raise and the controller is never terminated, its clock continuing to
advance one per iteration. -/
theorem c7_amended_swallowed (s : PlcState) (e : PyErr) (n : Nat)
    (h : (runRules s.controls (incClock s)).2 = some e) :
    main_loop_tick s = (runRules s.controls (incClock s)).1 ∧
    (main_loop_n n s).local_time = s.local_time + n :=
  ⟨rfl, main_loop_clock n s⟩

/-- Witness for `c7_amended_swallowed` at the C7 fixture. -/
theorem c7_amended_witness :
    main_loop_tick s7 = (runRules s7.controls (incClock s7)).1 ∧
    (main_loop_n 3 s7).local_time = s7.local_time + 3 :=
  c7_amended_swallowed s7 (PyErr.invalidControlValue ("foo")) 3 (by decide)

/-- Fixture for C8: two controllers; this process is the first, the tag T1
belongs to the second, whose server would answer a `receive` at its
address. -/
def plcFirst : PlcConfig := ⟨"PLC1", "10.0.1.1", ["T0"], ["PU1"]⟩

/-- Fixture for C8: the second controller, owner of tag T1. -/
def plcSecond : PlcConfig := ⟨"PLC2", "10.0.1.2", ["T1"], ["PU2"]⟩

/-- Fixture for C8: the state of the first controller; note the peer value
for T1 is available at the second controller's address. -/
def s8 : PlcState :=
  { plcs := [plcFirst, plcSecond], yaml_index := 0, index := 0, local_time := 0,
    controls := [],
    localTags := [("T0", PyNum.float (natToRat 3)), ("PU1", PyNum.int 0)],
    network := [(("10.0.1.2", "T1"), PyNum.float (natToRat 7))] }

/-- C8 code bug: for a tag listed by another controller, `get_tag` never
reaches `self.receive`: the membership test subscripts the enumerated plc
dict with the integer loop index (`plc_data[i]["sensors"]`,
generic_plc.py line 152), and the plc dicts have no integer keys, so the
call raises `KeyError(1)` instead of returning the remotely received value —
even though the peer value is available at the second controller's address
and the local path works. `TagDoesNotExist` is therefore not raised exactly
when no controller lists the tag, but only when there is no other plc left
to scan. -/
theorem c8_remote_read_keyerror :
    get_tag s8 ("T1") = Except.error (PyErr.keyError ("1")) ∧
    receive s8 ("T1") ("10.0.1.2") = Except.ok (PyNum.float (natToRat 7)) ∧
    get_tag s8 ("T0") = Except.ok (PyNum.float (natToRat 3)) := by decide

/-- Helper: a run of collector iterations appends its sampled rows to the
buffer and keeps the process alive. -/
theorem scada_run_fields (rows : List ScadaRow) (s : ScadaState) :
    (scada_run s rows).saved_tank_levels = s.saved_tank_levels ++ rows ∧
    (scada_run s rows).running = s.running := by
  induction rows generalizing s with
  | nil => simp [scada_run]
  | cons r rest ih =>
    have hstep : scada_run s (r :: rest) = scada_run (scada_append s r) rest := rfl
    rw [hstep]
    rcases ih (scada_append s r) with ⟨h1, h2⟩
    constructor
    · rw [h1]
      simp [scada_append]
    · rw [h2]
      rfl

/-- C9 confirmed: from `pre_loop` onward the buffer is the header row
followed by the sampled rows, and the first shutdown request flushes
exactly that buffer — header included, every row once, none lost, none
duplicated — to the output file; a second shutdown request delivered after
the flush changes nothing, the process having exited. -/
theorem c9_flush_once_idempotent (s : ScadaState) (rows : List ScadaRow)
    (h : s.running = true) :
    (deliverShutdown (scada_run (scada_pre_loop s) rows)).fileContents =
      some (scadaHeader :: rows) ∧
    deliverShutdown (deliverShutdown (scada_run (scada_pre_loop s) rows)) =
      deliverShutdown (scada_run (scada_pre_loop s) rows) := by
  rcases scada_run_fields rows (scada_pre_loop s) with ⟨hb, hr⟩
  have hrun : (scada_run (scada_pre_loop s) rows).running = true := by
    rw [hr]
    exact h
  have hbuf : (scada_run (scada_pre_loop s) rows).saved_tank_levels =
      scadaHeader :: rows := by
    rw [hb]
    rfl
  constructor
  · simp [deliverShutdown, hrun, sigint_handler, write_output, hbuf]
  · simp [deliverShutdown, hrun, sigint_handler, write_output]

/-- Witness for `c9_flush_once_idempotent`: a fresh collector buffering one
sample row. -/
theorem c9_witness :
    (deliverShutdown (scada_run (scada_pre_loop ⟨[], none, true⟩) [["1", "t", "5"]])).fileContents =
      some (scadaHeader :: [["1", "t", "5"]]) ∧
    deliverShutdown (deliverShutdown (scada_run (scada_pre_loop ⟨[], none, true⟩) [["1", "t", "5"]])) =
      deliverShutdown (scada_run (scada_pre_loop ⟨[], none, true⟩) [["1", "t", "5"]]) :=
  c9_flush_once_idempotent ⟨[], none, true⟩ [["1", "t", "5"]] rfl

/-- C10 confirmed: from a start state with clock 0 (as set by
`GenericPLC.__init__`), after any number of loop iterations the clock equals
the iteration count — each iteration increments it exactly once, before any
rule, even in iterations a rule aborts — so the clock visible to rule
evaluation inside the next tick is the strictly positive successor, and a
Time rule with trigger tick 0 never fires: applied at any such clock it
returns the state unchanged. -/
theorem c10_clock_time_zero_never_fires (s : PlcState) (h : s.local_time = 0)
    (n : Nat) (a act : String) :
    (main_loop_n n s).local_time = n ∧
    0 < (incClock (main_loop_n n s)).local_time ∧
    applyControl (RuntimeControl.time a act (PyNum.int 0)) (incClock (main_loop_n n s)) =
      Except.ok (incClock (main_loop_n n s)) := by
  have hc := main_loop_clock n s
  rw [h] at hc
  have hcn : (main_loop_n n s).local_time = n := by omega
  refine ⟨hcn, ?_, ?_⟩
  · simp [incClock]
  · have hclock : get_master_clock (incClock (main_loop_n n s)) = n + 1 := by
      simp [get_master_clock, incClock, hcn]
    have hne : ¬ (natToRat (get_master_clock (incClock (main_loop_n n s))) =
        PyNum.toRat (PyNum.int 0)) := by
      rw [hclock]
      intro hq
      simp only [natToRat, PyNum.toRat, intToRat, Rat.mkRat_one] at hq
      have h0 : Int.ofNat (n + 1) = 0 := by exact_mod_cast hq
      exact absurd (Int.ofNat_eq_zero.mp h0) (Nat.succ_ne_zero n)
    simp only [applyControl]
    rw [if_neg hne]

/-- Fixture for C10: a freshly initialized controller with no rules. -/
def s10 : PlcState :=
  { plcs := [plcSelf], yaml_index := 0, index := 0, local_time := 0,
    controls := [], localTags := [], network := [] }

/-- Witness for `c10_clock_time_zero_never_fires` after four iterations of
the fixture controller. -/
theorem c10_witness :
    (main_loop_n 4 s10).local_time = 4 ∧
    0 < (incClock (main_loop_n 4 s10)).local_time ∧
    applyControl (RuntimeControl.time ("PU1") ("open") (PyNum.int 0)) (incClock (main_loop_n 4 s10)) =
      Except.ok (incClock (main_loop_n 4 s10)) :=
  c10_clock_time_zero_never_fires s10 rfl 4 ("PU1") ("open")
